import Mathlib

/-!
Shallow embedding of the `theon` geometry crate (src/lib.rs and src/array.rs):
the generic `Lattice` family (meet / join / partial comparisons / clamp), the
composite tuple adapters (`IntoItems` / `FromItems`), `lerp`, and the SVD-based
plane fitter `svd_ev_plane`.

Rust scalars implementing `PartialOrd` are modelled by a comparison structure
`PartialOrdT` carrying a `partial_cmp : α → α → Option Ordering`; the derived
`<=` / `>=` operators follow Rust's `PartialOrd` defaults.  Floating-point
scalars with a NaN value are modelled by `Fl`, rationals extended with an
incomparable `nan` element.  Code that can panic (`unwrap`, `unimplemented!`)
is embedded in `Except String`, with `Except.error msg` standing for a panic.
-/

deriving instance DecidableEq for Except

namespace Theon

/-- Model of a Rust `PartialOrd` implementation on a scalar type `α`:
the `partial_cmp` method. -/
structure PartialOrdT (α : Type) where
  partial_cmp : α → α → Option Ordering

/-- Rust `a <= b` for a `PartialOrd` type:
`matches!(partial_cmp(a, b), Some(Less | Equal))`. -/
def PartialOrdT.le {α : Type} (P : PartialOrdT α) (a b : α) : Bool :=
  match P.partial_cmp a b with
  | some Ordering.lt => true
  | some Ordering.eq => true
  | _ => false

/-- Rust `a >= b` for a `PartialOrd` type:
`matches!(partial_cmp(a, b), Some(Greater | Equal))`. -/
def PartialOrdT.ge {α : Type} (P : PartialOrdT α) (a b : α) : Bool :=
  match P.partial_cmp a b with
  | some Ordering.gt => true
  | some Ordering.eq => true
  | _ => false

/-- Rust `Lattice::meet` from the blanket `impl<T: Copy + PartialOrd> Lattice for T`
(src/lib.rs:168-175): `if *self <= *other { *self } else { *other }`. -/
def meet {α : Type} (P : PartialOrdT α) (a b : α) : α :=
  if P.le a b then a else b

/-- Rust `Lattice::join` from the blanket impl (src/lib.rs:177-184):
`if *self >= *other { *self } else { *other }`. -/
def join {α : Type} (P : PartialOrdT α) (a b : α) : α :=
  if P.ge a b then a else b

/-- Rust `Lattice::meet_join` (src/lib.rs:130-132). -/
def meet_join {α : Type} (P : PartialOrdT α) (a b : α) : α × α :=
  (meet P a b, join P a b)

/-- Rust `Lattice::partial_min` (src/lib.rs:134-140): `Greater ↦ other`,
any other ordering `↦ self`, incomparable `↦ None`. -/
def partial_min {α : Type} (P : PartialOrdT α) (a b : α) : Option α :=
  match P.partial_cmp a b with
  | some Ordering.gt => some b
  | some _ => some a
  | none => none

/-- Rust `Lattice::partial_max` (src/lib.rs:142-148): `Less ↦ other`,
any other ordering `↦ self`, incomparable `↦ None`. -/
def partial_max {α : Type} (P : PartialOrdT α) (a b : α) : Option α :=
  match P.partial_cmp a b with
  | some Ordering.lt => some b
  | some _ => some a
  | none => none

/-- Rust `Lattice::partial_ordered_pair` (src/lib.rs:150-156): `Less ↦ (self, other)`,
any other ordering `↦ (other, self)`, incomparable `↦ None`. -/
def partial_ordered_pair {α : Type} (P : PartialOrdT α) (a b : α) :
    Option (α × α) :=
  match P.partial_cmp a b with
  | some Ordering.lt => some (a, b)
  | some _ => some (b, a)
  | none => none

/-- Rust `Lattice::partial_clamp` (src/lib.rs:158-161): the body is
`unimplemented!()`, which panics unconditionally with the message
"not implemented"; the arguments are discarded. -/
def partial_clamp {α : Type} (P : PartialOrdT α) (x lo hi : α) :
    Except String (Option α) :=
  let _ := (P, x, lo, hi)
  Except.error "not implemented"

/-- Floating-point scalar model: a rational number or the incomparable `nan`. -/
inductive Fl where
  | nan : Fl
  | num (q : ℚ) : Fl
deriving DecidableEq

/-- Model of `f64::partial_cmp`: numeric values compare by the order on ℚ, and any
comparison involving `nan` is undefined. -/
def Fl.partial_cmp : Fl → Fl → Option Ordering
  | Fl.num a, Fl.num b =>
    some (if a < b then Ordering.lt else if a = b then Ordering.eq else Ordering.gt)
  | _, _ => none

/-- The `PartialOrdT` instance for the float model. -/
def flOrd : PartialOrdT Fl :=
  ⟨Fl.partial_cmp⟩

/-- The comparison on the float model satisfies Rust's `PartialOrd` contract:
swapping the operands reverses the ordering. -/
theorem flOrd_rev (x y : Fl) :
    flOrd.partial_cmp y x = (flOrd.partial_cmp x y).map Ordering.swap := by
  cases x with
  | nan => cases y <;> rfl
  | num a =>
    cases y with
    | nan => rfl
    | num b =>
      simp only [flOrd, Fl.partial_cmp, Option.map_some]
      rcases lt_trichotomy a b with h | h | h
      · simp [h, not_lt.mpr h.le, h.ne, h.ne.symm, Ordering.swap]
      · simp [h, lt_irrefl, Ordering.swap]
      · simp [h, not_lt.mpr h.le, h.ne, h.ne.symm, Ordering.swap]

/-- Rust `IntoItems::into_items` for pairs (src/lib.rs:55-61): the elements in
original order. -/
def into_items2 {α : Type} : α × α → List α
  | (a, b) => [a, b]

/-- Rust `IntoItems::into_items` for triples (src/lib.rs:63-69). -/
def into_items3 {α : Type} : α × α × α → List α
  | (a, b, c) => [a, b, c]

/-- Rust `FromItems::from_items` for pairs (src/lib.rs:77-88): take 2 items from the
iterator; `Some` tuple when both are present, `None` otherwise. -/
def from_items2 {α : Type} (items : List α) : Option (α × α) :=
  match items.take 2 with
  | [a, b] => some (a, b)
  | _ => none

/-- Rust `FromItems::from_items` for triples (src/lib.rs:90-101): take 3 items;
`Some` tuple when all three are present, `None` otherwise. -/
def from_items3 {α : Type} (items : List α) : Option (α × α × α) :=
  match items.take 3 with
  | [a, b, c] => some (a, b, c)
  | _ => none

/-- Rust `Converged::converged` for pairs (src/lib.rs:107-114). -/
def converged2 {α : Type} (value : α) : α × α :=
  (value, value)

/-- Rust `Converged::converged` for triples (src/lib.rs:116-123). -/
def converged3 {α : Type} (value : α) : α × α × α :=
  (value, value, value)

/-- Model of `num::clamp(input, min, max)`:
`if input < min { min } else if input > max { max } else { input }`. -/
def num_clamp (input mn mx : ℚ) : ℚ :=
  if input < mn then mn else if input > mx then mx else input

/-- Rust `lerp` (src/lib.rs:198-206) under exact arithmetic: the factor is clamped
to `[0, 1]`, then `a * (1 - f) + b * f`. -/
def lerp (a b f : ℚ) : ℚ :=
  let f := num_clamp f 0 1
  let af := a * (1 - f)
  let bf := b * f
  af + bf

/-- A point (or vector) of the 3-dimensional space `S`, coordinates in the
float model. -/
def Pt : Type := Fl × Fl × Fl

instance : DecidableEq Pt := by
  unfold Pt
  infer_instance

/-- Componentwise float addition (`nan` propagates). -/
def Fl.add : Fl → Fl → Fl
  | Fl.num a, Fl.num b => Fl.num (a + b)
  | _, _ => Fl.nan

/-- Componentwise float subtraction (`nan` propagates). -/
def Fl.sub : Fl → Fl → Fl
  | Fl.num a, Fl.num b => Fl.num (a - b)
  | _, _ => Fl.nan

/-- Float divided by a natural number (`nan` propagates). -/
def Fl.div_nat : Fl → Nat → Fl
  | Fl.num a, n => if n = 0 then Fl.nan else Fl.num (a / (n : ℚ))
  | Fl.nan, _ => Fl.nan

/-- Pointwise addition of points. -/
def pt_add (p q : Pt) : Pt :=
  (Fl.add p.1 q.1, Fl.add p.2.1 q.2.1, Fl.add p.2.2 q.2.2)

/-- Vector difference `point - point -> Vector` (pointwise subtraction). -/
def pt_sub (p q : Pt) : Pt :=
  (Fl.sub p.1 q.1, Fl.sub p.2.1 q.2.1, Fl.sub p.2.2 q.2.2)

/-- The zero point. -/
def pt_zero : Pt :=
  (Fl.num 0, Fl.num 0, Fl.num 0)

/-- Division of a point by a natural number, coordinatewise. -/
def pt_div_nat (p : Pt) (n : Nat) : Pt :=
  (Fl.div_nat p.1 n, Fl.div_nat p.2.1 n, Fl.div_nat p.2.2 n)

/-- Modelled from the spec: `EuclideanSpace::centroid` lives in src/space.rs,
which is not part of the sources; per the spec it is "the arithmetic mean of
all points" and "fails (produces no result) if the collection is empty". -/
def centroid (points : List Pt) : Option Pt :=
  match points with
  | [] => none
  | _ => some (pt_div_nat (points.foldl pt_add pt_zero) points.length)

/-- Modelled from the spec: `Unit<Vector<S>>` lives in src/query.rs, which is
not part of the sources; per the spec it is an immutable wrapper around a
vector, produced only by the fallible constructor `try_from_inner`. -/
structure UnitVec where
  inner : Pt
deriving DecidableEq

/-- Modelled from the spec: `Plane { origin: Point, normal: Unit<Vector> }`
lives in src/query.rs, which is not part of the sources. -/
structure Plane where
  origin : Pt
  normal : UnitVec
deriving DecidableEq

/-- The left singular-vector matrix as the backend hands it to the fitter:
a list of columns, each a list of scalars.  `u.cols()` is the number of
columns and `u.column(i)` is the `i`-th entry. -/
def UMat : Type := List (List Fl)

/-- The numeric factorization backend (ndarray / ndarray-linalg), treated as
an opaque collaborator with the interface the fitter uses: `into_matrix`
builds a matrix of a backend-owned type `μ` from a layout and flat
column-major data (`Ok`/`Err` collapsed to `Option` by `.ok()`), and
`svd_into` returns `(optional left factor, singular values, optional right
factor)` or fails. -/
structure Backend (μ : Type) where
  into_matrix : Nat × Nat → List Fl → Option μ
  svd_into : μ → Bool → Bool → Option (Option UMat × List Fl × Option UMat)

/-- The panic message of `Option::unwrap` on `None`. -/
def unwrap_msg : String :=
  "called `Option::unwrap()` on a `None` value"

/-- The fold inside `Iterator::min_by`: `bi`/`bv` are the index and value of
the current best, `i` the index of the next element; the best is kept when it
compares `Less` or `Equal` to the next element (per `cmp::min_by`), and
`Except.error` models the `unwrap` panic on an undefined comparison. -/
def min_by_go (cmp : Fl → Fl → Option Ordering) (bi : Nat) (bv : Fl) (i : Nat) :
    List Fl → Except String (Option Nat)
  | [] => Except.ok (some bi)
  | y :: ys =>
    match cmp bv y with
    | none => Except.error unwrap_msg
    | some Ordering.gt => min_by_go cmp i y (i + 1) ys
    | some _ => min_by_go cmp bi bv (i + 1) ys

/-- The selection `sigma.iter().enumerate().min_by(|(_, v1), (_, v2)| v1.partial_cmp(v2).unwrap())`
(src/array.rs:51-55): the index of the first minimum of the list; the empty
list gives `none` (propagated by `?` in the source), otherwise the fold
starts with index 0. -/
def min_by_idx (cmp : Fl → Fl → Option Ordering) : List Fl → Except String (Option Nat)
  | [] => Except.ok none
  | x :: xs => min_by_go cmp 0 x 1 xs

/-- Rust `svd_ev_plane` (src/array.rs:31-70) over an opaque backend `bk` and the
(spec-modelled, src/query.rs) `Unit::try_from_inner` constructor `tfi`:
centroid, centered vectors flattened column-major into an `n × 3` matrix, SVD
with both factors requested, index of the minimum singular value by a
total-order comparison (`Except.error` models the `unwrap` panic there),
bounds check against `u.cols()`, the selected column recomposed into a vector
and wrapped as the unit normal.  Every fallible step other than the `unwrap`
collapses to `Except.ok none`. -/
def svd_ev_plane {μ : Type} (bk : Backend μ) (tfi : Pt → Option UnitVec)
    (points : List Pt) : Except String (Option Plane) :=
  match centroid points with
  | none => Except.ok none
  | some c =>
    match bk.into_matrix (points.length, 3)
        ((points.map (fun point => pt_sub point c)).flatMap into_items3) with
    | none => Except.ok none
    | some m =>
      match bk.svd_into m true true with
      | some (some u, sigma, _) =>
        match min_by_idx Fl.partial_cmp sigma with
        | Except.error e => Except.error e
        | Except.ok none => Except.ok none
        | Except.ok (some i) =>
          if i < u.length then
            match from_items3 (u.getD i []) with
            | none => Except.ok none
            | some normal =>
              match tfi (normal.1, normal.2.1, normal.2.2) with
              | none => Except.ok none
              | some unit => Except.ok (some ⟨c, unit⟩)
          else
            Except.ok none
      | _ => Except.ok none

/-- C1: the claim states that `partial_clamp(x, lo, hi)` returns `x` when
`lo ≤ x ≤ hi`, `lo` when `x < lo`, `hi` when `x > hi`, and no result on an
unordered pairing.  The source body is `unimplemented!()`: on every input —
in particular on `x = 1, lo = 0, hi = 2`, where `lo ≤ x ≤ hi` holds — the
call panics with "not implemented" instead of returning `x`. -/
theorem claim_C1_partial_clamp_unimplemented :
    (∀ (α : Type) (P : PartialOrdT α) (x lo hi : α),
        partial_clamp P x lo hi = Except.error "not implemented") ∧
    partial_clamp flOrd (Fl.num 1) (Fl.num 0) (Fl.num 2) =
      Except.error "not implemented" ∧
    flOrd.le (Fl.num 0) (Fl.num 1) = true ∧
    flOrd.le (Fl.num 1) (Fl.num 2) = true := by
  refine ⟨fun α P x lo hi => rfl, rfl, by decide, by decide⟩

/-- C3: for mutually comparable operands, `meet` returns the lesser and `join`
the greater operand, and on ties (`partial_cmp = Equal`) both return the
left-hand operand `a`; on the float model, `meet`/`join` of numeric values
are exactly `min`/`max` of the underlying rationals. -/
theorem claim_C3_meet_join_min_max :
    (∀ (α : Type) (P : PartialOrdT α) (a b : α) (o : Ordering),
        P.partial_cmp a b = some o →
          meet P a b = (if o = Ordering.gt then b else a) ∧
          join P a b = (if o = Ordering.lt then b else a)) ∧
    (∀ x y : ℚ,
        meet flOrd (Fl.num x) (Fl.num y) = Fl.num (min x y) ∧
        join flOrd (Fl.num x) (Fl.num y) = Fl.num (max x y)) := by
  constructor
  · intro α P a b o h
    cases o <;> simp [meet, join, PartialOrdT.le, PartialOrdT.ge, h]
  · intro x y
    rcases lt_trichotomy x y with h | h | h
    · simp [meet, join, flOrd, Fl.partial_cmp, PartialOrdT.le, PartialOrdT.ge,
        h, min_eq_left h.le, max_eq_right h.le]
    · subst h
      simp [meet, join, flOrd, Fl.partial_cmp, PartialOrdT.le, PartialOrdT.ge,
        lt_irrefl]
    · simp [meet, join, flOrd, Fl.partial_cmp, PartialOrdT.le, PartialOrdT.ge,
        h, not_lt.mpr h.le, h.ne.symm, min_eq_right h.le, max_eq_left h.le]

/-- Witness for C3 at a comparable pair, discharging the comparability
hypothesis at `a = 1`, `b = 2`. -/
theorem claim_C3_witness :
    meet flOrd (Fl.num 1) (Fl.num 2) = Fl.num 1 ∧
    join flOrd (Fl.num 1) (Fl.num 2) = Fl.num 2 := by
  have h := claim_C3_meet_join_min_max.1 Fl flOrd (Fl.num 1) (Fl.num 2)
    Ordering.lt (by decide)
  simpa using h

/-- C4: `partial_min`, `partial_max` and `partial_ordered_pair` return no
result exactly when `partial_cmp` returns no ordering, and a returned ordered
pair has its first component `<=` its second (given Rust's `PartialOrd`
contract that swapping the operands reverses the comparison). -/
theorem claim_C4_partial_family (α : Type) (P : PartialOrdT α) (a b : α)
    (hrev : ∀ x y : α, P.partial_cmp y x = (P.partial_cmp x y).map Ordering.swap) :
    (partial_min P a b = none ↔ P.partial_cmp a b = none) ∧
    (partial_max P a b = none ↔ P.partial_cmp a b = none) ∧
    (partial_ordered_pair P a b = none ↔ P.partial_cmp a b = none) ∧
    (∀ l g : α, partial_ordered_pair P a b = some (l, g) → P.le l g = true) := by
  refine ⟨?_, ?_, ?_, ?_⟩
  · cases h : P.partial_cmp a b with
    | none => simp [partial_min, h]
    | some o => cases o <;> simp [partial_min, h]
  · cases h : P.partial_cmp a b with
    | none => simp [partial_max, h]
    | some o => cases o <;> simp [partial_max, h]
  · cases h : P.partial_cmp a b with
    | none => simp [partial_ordered_pair, h]
    | some o => cases o <;> simp [partial_ordered_pair, h]
  · intro l g hp
    cases h : P.partial_cmp a b with
    | none => simp [partial_ordered_pair, h] at hp
    | some o =>
      have hba := hrev a b
      rw [h] at hba
      cases o with
      | lt =>
        simp [partial_ordered_pair, h] at hp
        obtain ⟨hl, hg⟩ := hp
        subst hl; subst hg
        simp [PartialOrdT.le, h]
      | eq =>
        simp [partial_ordered_pair, h] at hp
        obtain ⟨hl, hg⟩ := hp
        subst hl; subst hg
        simp [PartialOrdT.le, hba, Ordering.swap]
      | gt =>
        simp [partial_ordered_pair, h] at hp
        obtain ⟨hl, hg⟩ := hp
        subst hl; subst hg
        simp [PartialOrdT.le, hba, Ordering.swap]

/-- Witness for C4 on the float model at `a = 2`, `b = 1` and at the
incomparable pair `(nan, 1)`, discharging the contract hypothesis with
`flOrd_rev`. -/
theorem claim_C4_witness :
    (partial_ordered_pair flOrd (Fl.num 2) (Fl.num 1) = none ↔
      flOrd.partial_cmp (Fl.num 2) (Fl.num 1) = none) ∧
    (partial_min flOrd Fl.nan (Fl.num 1) = none ↔
      flOrd.partial_cmp Fl.nan (Fl.num 1) = none) :=
  ⟨(claim_C4_partial_family Fl flOrd (Fl.num 2) (Fl.num 1) flOrd_rev).2.2.1,
   (claim_C4_partial_family Fl flOrd Fl.nan (Fl.num 1) flOrd_rev).1⟩

/-- C6 counterexample: the claim states that on non-comparable operands
`meet`/`join` return the left-hand operand `self`.  At `a = nan`, `b = 1`
both return `b = 1`, and `1 ≠ nan`. -/
theorem claim_C6_counterexample :
    meet flOrd Fl.nan (Fl.num 1) = Fl.num 1 ∧
    join flOrd Fl.nan (Fl.num 1) = Fl.num 1 ∧
    Fl.num 1 ≠ Fl.nan := by
  refine ⟨rfl, rfl, by decide⟩

/-- C6 amended: on non-comparable operands `meet` and `join` still return a
value, but it is the right-hand operand `other`, not `self` (both `<=` and
`>=` are false when `partial_cmp` gives no ordering, so the `else` branch
returns `*other`). -/
theorem claim_C6_amended_meet_join_return_other (α : Type) (P : PartialOrdT α)
    (a b : α) (h : P.partial_cmp a b = none) :
    meet P a b = b ∧ join P a b = b := by
  simp [meet, join, PartialOrdT.le, PartialOrdT.ge, h]

/-- Witness for C6 amended at the incomparable pair `(nan, 1)`. -/
theorem claim_C6_amended_witness :
    meet flOrd Fl.nan (Fl.num 1) = Fl.num 1 ∧
    join flOrd Fl.nan (Fl.num 1) = Fl.num 1 :=
  claim_C6_amended_meet_join_return_other Fl flOrd Fl.nan (Fl.num 1) (by decide)

/-- C7: `from_items` targeting a pair (resp. triple) yields no result when the
input holds fewer than 2 (resp. 3) items, and otherwise builds the tuple from
exactly the first 2 (resp. 3) items in order, discarding the rest. -/
theorem claim_C7_from_items_arity (α : Type) (l : List α) :
    (l.length < 2 → from_items2 l = none) ∧
    (l.length < 3 → from_items3 l = none) ∧
    (∀ a b rest, l = a :: b :: rest → from_items2 l = some (a, b)) ∧
    (∀ a b c rest, l = a :: b :: c :: rest → from_items3 l = some (a, b, c)) := by
  match l with
  | [] =>
    refine ⟨fun _ => rfl, fun _ => rfl, ?_, ?_⟩ <;> intros <;> simp_all
  | [a] =>
    refine ⟨fun _ => rfl, fun _ => rfl, ?_, ?_⟩ <;> intros <;> simp_all
  | [a, b] =>
    refine ⟨fun h => by simp at h, fun _ => rfl, ?_, ?_⟩
    · intro x y rest h
      cases h
      rfl
    · intros x y z rest h
      simp at h
  | a :: b :: c :: rest =>
    refine ⟨fun h => by simp at h; omega, fun h => by simp at h; omega, ?_, ?_⟩
    · intro x y r h
      cases h
      rfl
    · intro x y z r h
      cases h
      rfl

/-- Witness for C7: the spec's scenarios — 5 items into a pair succeeds with
the first 2, and 2 items into a triple fails. -/
theorem claim_C7_witness :
    from_items2 [1, 2, 3, 4, 5] = some (1, 2) ∧
    from_items3 ([9, 9] : List Nat) = none :=
  ⟨(claim_C7_from_items_arity Nat [1, 2, 3, 4, 5]).2.2.1 1 2 [3, 4, 5] rfl,
   (claim_C7_from_items_arity Nat [9, 9]).2.1 (by decide)⟩

/-- C9: decomposing a pair or triple yields its elements in order, and
recomposing that sequence reproduces the tuple exactly. -/
theorem claim_C9_round_trip (α : Type) (p : α × α) (t : α × α × α) :
    from_items2 (into_items2 p) = some p ∧
    from_items3 (into_items3 t) = some t := by
  obtain ⟨a, b⟩ := p
  obtain ⟨c, d, e⟩ := t
  exact ⟨rfl, rfl⟩

/-- C10: `lerp` clamps its factor into `[0, 1]` before interpolating, so under
exact arithmetic `lerp a b f = a` for every `f ≤ 0` and `lerp a b f = b` for
every `f ≥ 1`. -/
theorem claim_C10_lerp_clamps (a b f : ℚ) :
    (0 ≤ num_clamp f 0 1 ∧ num_clamp f 0 1 ≤ 1) ∧
    (f ≤ 0 → lerp a b f = a) ∧
    (1 ≤ f → lerp a b f = b) := by
  have hdef : lerp a b f = a * (1 - num_clamp f 0 1) + b * num_clamp f 0 1 := rfl
  refine ⟨⟨?_, ?_⟩, ?_, ?_⟩
  · unfold num_clamp
    split_ifs <;> linarith
  · unfold num_clamp
    split_ifs <;> linarith
  · intro hf
    have hc : num_clamp f 0 1 = 0 := by
      unfold num_clamp
      split_ifs <;> linarith
    rw [hdef, hc]; ring
  · intro hf
    have hc : num_clamp f 0 1 = 1 := by
      unfold num_clamp
      split_ifs <;> linarith
    rw [hdef, hc]; ring

/-- Witness for C10 at `a = 2`, `b = 5` with factors `-1` and `2`. -/
theorem claim_C10_witness :
    lerp 2 5 (-1) = 2 ∧ lerp 2 5 2 = 5 :=
  ⟨(claim_C10_lerp_clamps 2 5 (-1)).2.1 (by norm_num),
   (claim_C10_lerp_clamps 2 5 2).2.2 (by norm_num)⟩

/-- An example backend that always builds its (trivial) matrix and whose SVD
reports one left column `(1, 0, 0)` with the single singular value `1`. -/
def bk_one : Backend PUnit :=
  ⟨fun _ _ => some PUnit.unit,
   fun _ _ _ => some (some [[Fl.num 1, Fl.num 0, Fl.num 0]], [Fl.num 1], none)⟩

/-- An example backend whose SVD reports two left columns with singular
values `(1, nan)` — a spectrum that cannot be totally compared. -/
def bk_nan : Backend PUnit :=
  ⟨fun _ _ => some PUnit.unit,
   fun _ _ _ =>
     some (some [[Fl.num 1, Fl.num 0, Fl.num 0], [Fl.num 0, Fl.num 1, Fl.num 0]],
           [Fl.num 1, Fl.nan], none)⟩

/-- An example unit constructor that accepts every vector. -/
def tfi_any : Pt → Option UnitVec :=
  fun v => some ⟨v⟩

/-- An example input point at the origin. -/
def pt0 : Pt :=
  (Fl.num 0, Fl.num 0, Fl.num 0)

/-- The centroid of the one-point collection `[pt0]`, as the fitter computes
it. -/
def c_ex : Pt :=
  pt_div_nat (List.foldl pt_add pt_zero [pt0]) 1

/-- The plane the example backend `bk_one` produces from `[pt0]`. -/
def pl_ex : Plane :=
  ⟨c_ex, ⟨(Fl.num 1, Fl.num 0, Fl.num 0)⟩⟩

/-- C5: on the empty collection the fitter returns no result, and the reason
is the first step — the centroid of an empty collection is absent — for every
backend and every unit constructor. -/
theorem claim_C5_empty_input (μ : Type) (bk : Backend μ)
    (tfi : Pt → Option UnitVec) :
    svd_ev_plane bk tfi [] = Except.ok none ∧
    centroid ([] : List Pt) = none :=
  ⟨rfl, rfl⟩

/-- C8: whenever the fitter succeeds, the origin of the returned plane is the
centroid of the input points, for every backend and unit constructor. -/
theorem claim_C8_origin_is_centroid (μ : Type) (bk : Backend μ)
    (tfi : Pt → Option UnitVec) (points : List Pt) (pl : Plane)
    (h : svd_ev_plane bk tfi points = Except.ok (some pl)) :
    centroid points = some pl.origin := by
  unfold svd_ev_plane at h
  repeat' split at h
  all_goals simp_all
  all_goals (subst h; rfl)

/-- Witness for C8: the example backend fits `[pt0]` successfully and the
returned origin is the centroid. -/
theorem claim_C8_witness :
    centroid [pt0] = some pl_ex.origin :=
  claim_C8_origin_is_centroid PUnit bk_one tfi_any [pt0] pl_ex rfl

/-- C2 counterexample: the claim states that incomparable singular values make
the fitter produce no result (`None`) like every other failure mode.  With the
backend `bk_nan`, whose singular values are `(1, nan)`, the fitter instead
panics: the comparison `1.partial_cmp(nan)` inside `min_by` is `None` and the
`unwrap` on it aborts, so the outcome is a panic, not `Ok(None)`. -/
theorem claim_C2_counterexample :
    svd_ev_plane bk_nan tfi_any [pt0] = Except.error unwrap_msg ∧
    svd_ev_plane bk_nan tfi_any [pt0] ≠ Except.ok none :=
  ⟨rfl, by decide⟩

/-- C2 amended: when the backend factorization succeeds but the selection of
the minimum singular value hits an undefined comparison, the fitter panics
with that comparison's `unwrap` message instead of returning a result; in
particular a spectrum starting `(q, nan, ...)` always panics. -/
theorem claim_C2_amended_incomparable_sigma_panics (μ : Type) (bk : Backend μ)
    (tfi : Pt → Option UnitVec) (points : List Pt) (c : Pt) (m : μ)
    (u : UMat) (sigma : List Fl) (vt : Option UMat) (msg : String)
    (hc : centroid points = some c)
    (hm : bk.into_matrix (points.length, 3)
        ((points.map (fun point => pt_sub point c)).flatMap into_items3) = some m)
    (hs : bk.svd_into m true true = some (some u, sigma, vt))
    (hmin : min_by_idx Fl.partial_cmp sigma = Except.error msg) :
    svd_ev_plane bk tfi points = Except.error msg ∧
    (∀ (q : ℚ) (rest : List Fl),
        min_by_idx Fl.partial_cmp (Fl.num q :: Fl.nan :: rest) =
          Except.error unwrap_msg) := by
  constructor
  · unfold svd_ev_plane
    simp only [hc, hm, hs, hmin]
  · intro q rest
    rfl

/-- Witness for C2 amended: the backend `bk_nan` on `[pt0]` discharges every
hypothesis and the fitter panics with the `unwrap` message. -/
theorem claim_C2_amended_witness :
    svd_ev_plane bk_nan tfi_any [pt0] = Except.error unwrap_msg :=
  (claim_C2_amended_incomparable_sigma_panics PUnit bk_nan tfi_any [pt0] c_ex
    PUnit.unit [[Fl.num 1, Fl.num 0, Fl.num 0], [Fl.num 0, Fl.num 1, Fl.num 0]]
    [Fl.num 1, Fl.nan] none unwrap_msg rfl rfl rfl rfl).1

end Theon
